import Mathlib

/-!
# Alunite: the application window

A shallow embedding of `Source/Window.h` and `Source/Window.cpp`.

The program is a C++/CLI shell over OpenTK: `main` allocates one `Window` and
runs it, the `Window` constructor forwards four fixed arguments to the base
`GameWindow` constructor, `OnUpdateFrame` has an empty body, and
`OnRenderFrame` clears two buffers and swaps.  Nothing in the program handles
a failure: when the base constructor raises, the failure leaves `main`.

Effects are made explicit.  A method that talks to the graphics context
returns, next to the receiver's new state, the list of calls it issued, in
order.  Enum values are 32-bit integers held as `Nat`, with the truncation
written out in the bitwise operators.
-/

namespace Alunite

/-! ## The framework types the sources use -/

/-- Modelled from the spec: `OpenTK.Graphics.GraphicsMode` is declared outside
the sources.  The program only ever names `GraphicsMode::Default`; any other
mode is kept apart from it by its buffer settings. -/
inductive GraphicsMode where
  | Default
  | Custom (color depth stencil samples : Nat)
  deriving DecidableEq, Repr

/-- Modelled from the spec: `OpenTK.FrameEventArgs` is declared outside the
sources.  It carries the frame timing datum (`Time`, a double), held here as
its 64-bit pattern. -/
structure FrameEventArgs where
  timeBits : Nat
  deriving DecidableEq, Repr

/-- A `FrameEventArgs^` handle: either `nullptr` or a reference to an
argument object. -/
abbrev FrameEventArgsHandle := Option FrameEventArgs

/-- Bitwise exclusive-or of two masks of `w` bits. -/
def xorBits (w a b : Nat) : Nat := (a ^^^ b) % 2 ^ w

/-- Bitwise or of two masks of `w` bits. -/
def orBits (w a b : Nat) : Nat := (a ||| b) % 2 ^ w

/-- Bitwise and of two masks of `w` bits. -/
def andBits (w a b : Nat) : Nat := (a &&& b) % 2 ^ w

namespace ClearBufferMask

/-- Modelled from the spec: the enum `ClearBufferMask` is declared in OpenTK,
outside the sources; its underlying type is a 32-bit integer. -/
def bits : Nat := 32

/-- Modelled from the spec: `ClearBufferMask::DepthBufferBit`, declared in
OpenTK with the value `0x00000100`. -/
def DepthBufferBit : Nat := 0x100

/-- Modelled from the spec: `ClearBufferMask::ColorBufferBit`, declared in
OpenTK with the value `0x00004000`. -/
def ColorBufferBit : Nat := 0x4000

/-- The operator `^` on two `ClearBufferMask` values. -/
def opXor (a b : Nat) : Nat := xorBits bits a b

/-- The operator `|` on two `ClearBufferMask` values. -/
def opOr (a b : Nat) : Nat := orBits bits a b

/-- The operator `&` on two `ClearBufferMask` values. -/
def opAnd (a b : Nat) : Nat := andBits bits a b

end ClearBufferMask

/-- A call that reaches the graphics context from inside a frame callback. -/
inductive Call where
  | Clear (mask : Nat)
  | SwapBuffers
  deriving DecidableEq, Repr

/-- Modelled from the spec: the state of the base class `OpenTK.GameWindow`,
declared outside the sources, as far as the constructor arguments fix it. -/
structure GameWindow where
  Width : Nat
  Height : Nat
  Mode : GraphicsMode
  Title : String
  deriving DecidableEq, Repr

/-- The class `Window : GameWindow` of `Window.h`; it declares no field of
its own. -/
structure Window extends GameWindow where
  deriving DecidableEq, Repr

/-- A call that `main` or a constructor makes into the framework. -/
inductive FrameworkCall where
  | Construct (width height : Nat) (mode : GraphicsMode) (title : String)
  | Run (receiver : Window)
  deriving DecidableEq, Repr

/-- Modelled from the spec: the base constructor
`GameWindow(width, height, mode, title)`, declared outside the sources, when
it runs to completion.  It yields a window with the size, mode and title it
was given, and is recorded as one framework call. -/
def GameWindow.ctor (width height : Nat) (mode : GraphicsMode) (title : String) :
    GameWindow × List FrameworkCall :=
  ({ Width := width, Height := height, Mode := mode, Title := title },
   [FrameworkCall.Construct width height mode title])

/-- Modelled from the spec: `GL::Clear(mask)`, declared outside the sources;
recorded as one call carrying the mask. -/
def GL.Clear (mask : Nat) : List Call := [Call.Clear mask]

/-- Modelled from the spec: `GameWindow::SwapBuffers()`, declared outside the
sources; it presents the frame, recorded as one call, and leaves the window's
size, mode and title alone. -/
def GameWindow.SwapBuffers (this : GameWindow) : GameWindow × List Call :=
  (this, [Call.SwapBuffers])

/-- Modelled from the spec: what the windowing framework raises when a window
cannot be constructed, "e.g., missing graphics context". -/
inductive ConstructionFailure where
  | MissingGraphicsContext
  | Other (code : Nat)
  deriving DecidableEq, Repr

/-- Modelled from the spec: the platform the process runs on, as far as window
construction depends on it: the failure the framework raises there, if any. -/
structure Platform where
  failure : Option ConstructionFailure
  deriving DecidableEq, Repr

/-- The outcome of an operation that may raise: the value it returns or the
failure that leaves it, next to the calls made up to that point. -/
abbrev Raising (ε α κ : Type) := Except ε α × List κ

/-- Modelled from the spec: the base constructor on a given platform.  The
call is made either way; where the platform has a failure in store the
constructor raises it, otherwise it completes as `GameWindow.ctor`. -/
def GameWindow.ctorOn (p : Platform) (width height : Nat) (mode : GraphicsMode)
    (title : String) : Raising ConstructionFailure GameWindow FrameworkCall :=
  let completed := GameWindow.ctor width height mode title
  match p.failure with
  | none => (Except.ok completed.1, completed.2)
  | some e => (Except.error e, completed.2)

/-! ## `Window.cpp` -/

/-- The constructor
`Window::Window() : GameWindow(640, 480, GraphicsMode::Default, "Alunite")`,
with an empty body, when the base constructor runs to completion. -/
def Window.ctor : Window × List FrameworkCall :=
  let base := GameWindow.ctor 640 480 GraphicsMode.Default "Alunite"
  ({ toGameWindow := base.1 }, base.2)

/-- The expression `gcnew Window()` on a given platform: the constructor
`Window::Window()` with its base constructor run there.  The constructor
handles nothing, so a failure of the base constructor leaves it as raised. -/
def Window.gcnew (p : Platform) : Raising ConstructionFailure Window FrameworkCall :=
  let base := GameWindow.ctorOn p 640 480 GraphicsMode.Default "Alunite"
  match base.1 with
  | Except.ok b => (Except.ok { toGameWindow := b }, base.2)
  | Except.error e => (Except.error e, base.2)

/-- The method `Window::OnUpdateFrame(FrameEventArgs^ Args)`: an empty body. -/
def Window.OnUpdateFrame (this : Window) (_Args : FrameEventArgsHandle) :
    Window × List Call :=
  (this, [])

/-- The method `Window::OnRenderFrame(FrameEventArgs^ Args)`:
`GL::Clear(DepthBufferBit ^ ColorBufferBit)`, then `this->SwapBuffers()`. -/
def Window.OnRenderFrame (this : Window) (_Args : FrameEventArgsHandle) :
    Window × List Call :=
  let cleared :=
    GL.Clear (ClearBufferMask.opXor ClearBufferMask.DepthBufferBit ClearBufferMask.ColorBufferBit)
  let swapped := this.toGameWindow.SwapBuffers
  ({ toGameWindow := swapped.1 }, cleared ++ swapped.2)

/-- The function `main()`: `Window^ w = gcnew Window(); w->Run();`, on a given
platform.  It has no handler: when the construction raises, the failure
leaves `main` and `w->Run()` is not reached.  The result carries the list of
framework calls made, in order. -/
def main (p : Platform) : Raising ConstructionFailure Unit FrameworkCall :=
  let w := Window.gcnew p
  match w.1 with
  | Except.ok window => (Except.ok (), w.2 ++ [FrameworkCall.Run window])
  | Except.error e => (Except.error e, w.2)

/-! ## Sequences of callbacks -/

/-- One invocation of a frame callback by the framework. -/
inductive Callback where
  | UpdateFrame (Args : FrameEventArgsHandle)
  | RenderFrame (Args : FrameEventArgsHandle)
  deriving DecidableEq, Repr

/-- Virtual dispatch of one callback on a window. -/
def Window.dispatch (this : Window) : Callback → Window × List Call
  | Callback.UpdateFrame Args => this.OnUpdateFrame Args
  | Callback.RenderFrame Args => this.OnRenderFrame Args

/-- A finite sequence of callbacks, run in order on a window; the calls each
one issues are collected in order. -/
def Window.runCallbacks (this : Window) : List Callback → Window × List Call
  | [] => (this, [])
  | cb :: rest =>
    let first := this.dispatch cb
    let later := first.1.runCallbacks rest
    (later.1, first.2 ++ later.2)

/-- The masks of the clear calls in a list of calls, in order. -/
def clearMasks : List Call → List Nat
  | [] => []
  | Call.Clear mask :: rest => mask :: clearMasks rest
  | Call.SwapBuffers :: rest => clearMasks rest

/-- A framework call that constructs a window. -/
def FrameworkCall.isConstruct : FrameworkCall → Bool
  | FrameworkCall.Construct _ _ _ _ => true
  | FrameworkCall.Run _ => false

/-- A framework call that runs a window. -/
def FrameworkCall.isRun : FrameworkCall → Bool
  | FrameworkCall.Construct _ _ _ _ => false
  | FrameworkCall.Run _ => true

/-! ## Shared lemmas -/

theorem testBit_xorBits (w a b i : Nat) :
    (xorBits w a b).testBit i = (decide (i < w) && Bool.xor (a.testBit i) (b.testBit i)) := by
  simp [xorBits, Nat.testBit_mod_two_pow]

theorem testBit_orBits (w a b i : Nat) :
    (orBits w a b).testBit i = (decide (i < w) && (a.testBit i || b.testBit i)) := by
  simp [orBits, Nat.testBit_mod_two_pow]

theorem testBit_andBits (w a b i : Nat) :
    (andBits w a b).testBit i = (decide (i < w) && (a.testBit i && b.testBit i)) := by
  simp [andBits, Nat.testBit_mod_two_pow]

theorem xorBits_eq_orBits_iff (w a b : Nat) :
    xorBits w a b = orBits w a b ↔ andBits w a b = 0 := by
  constructor
  · intro h
    apply Nat.eq_of_testBit_eq
    intro i
    have hi := congrArg (fun n => n.testBit i) h
    simp only [testBit_xorBits, testBit_orBits] at hi
    rw [testBit_andBits, Nat.zero_testBit]
    revert hi
    cases decide (i < w) <;> cases a.testBit i <;> cases b.testBit i <;> simp
  · intro h
    apply Nat.eq_of_testBit_eq
    intro i
    have hi := congrArg (fun n => n.testBit i) h
    simp only [testBit_andBits, Nat.zero_testBit] at hi
    rw [testBit_xorBits, testBit_orBits]
    revert hi
    cases decide (i < w) <;> cases a.testBit i <;> cases b.testBit i <;> simp

theorem clearMask_value :
    ClearBufferMask.opXor ClearBufferMask.DepthBufferBit ClearBufferMask.ColorBufferBit
      = 0x4100 := by
  decide

theorem OnRenderFrame_calls (this : Window) (Args : FrameEventArgsHandle) :
    (this.OnRenderFrame Args).2 = [Call.Clear 0x4100, Call.SwapBuffers] := by
  simp [Window.OnRenderFrame, GL.Clear, GameWindow.SwapBuffers, clearMask_value]

theorem OnRenderFrame_state (this : Window) (Args : FrameEventArgsHandle) :
    (this.OnRenderFrame Args).1 = this := by
  rfl

theorem dispatch_state (this : Window) (cb : Callback) : (this.dispatch cb).1 = this := by
  cases cb <;> rfl

theorem runCallbacks_state (this : Window) (cbs : List Callback) :
    (this.runCallbacks cbs).1 = this := by
  induction cbs generalizing this with
  | nil => rfl
  | cons cb rest ih =>
    simp only [Window.runCallbacks]
    rw [ih, dispatch_state]

theorem testBit_clearMask (i : Nat) : Nat.testBit 0x4100 i = true ↔ i = 8 ∨ i = 14 := by
  by_cases hi : i < 15
  · interval_cases i <;> decide
  · have hpow : 2 ^ 15 ≤ 2 ^ i := Nat.pow_le_pow_right (by decide) (by omega)
    have hlt : 0x4100 < 2 ^ i := Nat.lt_of_lt_of_le (by decide) hpow
    rw [Nat.testBit_lt_two_pow hlt]
    constructor
    · intro h
      cases h
    · intro h
      omega

/-! ## Properties of the window -/

/-- C1: for every window and every frame-event argument, `OnRenderFrame`
issues one clear call; its mask equals the bitwise or of `DepthBufferBit`
(0x100) and `ColorBufferBit` (0x4000), it contains each of the two flags, and
bit 8 and bit 14 are the bits that are set in it, no other. -/
theorem C1_render_clear_mask_is_or (this : Window) (Args : FrameEventArgsHandle) :
    ClearBufferMask.DepthBufferBit = 0x100 ∧ ClearBufferMask.ColorBufferBit = 0x4000 ∧
    ∃ mask, clearMasks (this.OnRenderFrame Args).2 = [mask] ∧
      mask = ClearBufferMask.opOr ClearBufferMask.DepthBufferBit ClearBufferMask.ColorBufferBit ∧
      ClearBufferMask.opAnd mask ClearBufferMask.DepthBufferBit = ClearBufferMask.DepthBufferBit ∧
      ClearBufferMask.opAnd mask ClearBufferMask.ColorBufferBit = ClearBufferMask.ColorBufferBit ∧
      ∀ i, mask.testBit i = true ↔ i = 8 ∨ i = 14 := by
  refine ⟨rfl, rfl, 0x4100, ?_, by decide, by decide, by decide, testBit_clearMask⟩
  rw [OnRenderFrame_calls]
  rfl

/-- C2: for every window and every frame-event argument, the calls of one
`OnRenderFrame` invocation contain exactly one `SwapBuffers` call. -/
theorem C2_render_swaps_exactly_once (this : Window) (Args : FrameEventArgsHandle) :
    (this.OnRenderFrame Args).2.count Call.SwapBuffers = 1 := by
  rw [OnRenderFrame_calls]
  decide

/-- C3: for every window and every frame-event argument, the calls of
`OnRenderFrame` are exactly the clear call followed by the buffer swap: the
swap is the last call and nothing follows it. -/
theorem C3_render_trace_clear_then_swap (this : Window) (Args : FrameEventArgsHandle) :
    (this.OnRenderFrame Args).2
      = [Call.Clear (ClearBufferMask.opXor ClearBufferMask.DepthBufferBit
            ClearBufferMask.ColorBufferBit), Call.SwapBuffers] ∧
    (this.OnRenderFrame Args).2.getLast? = some Call.SwapBuffers ∧
    (this.OnRenderFrame Args).2.indexOf
        (Call.Clear (ClearBufferMask.opXor ClearBufferMask.DepthBufferBit
            ClearBufferMask.ColorBufferBit))
      < (this.OnRenderFrame Args).2.indexOf Call.SwapBuffers := by
  rw [OnRenderFrame_calls, clearMask_value]
  refine ⟨rfl, rfl, by decide⟩

/-- C4: the `Window` constructor takes no argument and passes exactly
(640, 480, `GraphicsMode::Default`, "Alunite") to the base constructor; the
window it yields has width 640 and height 480, the default mode and the title
"Alunite". -/
theorem C4_ctor_forwards_fixed_arguments :
    Window.ctor.2 = [FrameworkCall.Construct 640 480 GraphicsMode.Default "Alunite"] ∧
    Window.ctor.1.toGameWindow = (GameWindow.ctor 640 480 GraphicsMode.Default "Alunite").1 ∧
    Window.ctor.1.Width = 640 ∧ Window.ctor.1.Height = 480 ∧
    Window.ctor.1.Mode = GraphicsMode.Default ∧ Window.ctor.1.Title = "Alunite" :=
  ⟨rfl, rfl, rfl, rfl, rfl, rfl⟩

/-- C5: `OnUpdateFrame` is a no-op: for every window state and every
frame-event argument it returns the state it was given and issues no call;
hence running it a second time gives the same result as running it once. -/
theorem C5_update_is_noop (this : Window) (Args : FrameEventArgsHandle) :
    this.OnUpdateFrame Args = (this, []) ∧
    (this.OnUpdateFrame Args).1.OnUpdateFrame Args = this.OnUpdateFrame Args :=
  ⟨rfl, rfl⟩

/-- C6: for masks of any fixed width, exclusive-or and or give the same mask
exactly when the two masks share no bit; `DepthBufferBit` and `ColorBufferBit`
share no bit, so the exclusive-or in the clear call equals their or. -/
theorem C6_xor_eq_or_iff_disjoint (w a b : Nat) :
    (xorBits w a b = orBits w a b ↔ andBits w a b = 0) ∧
    ClearBufferMask.opAnd ClearBufferMask.DepthBufferBit ClearBufferMask.ColorBufferBit = 0 ∧
    ClearBufferMask.opXor ClearBufferMask.DepthBufferBit ClearBufferMask.ColorBufferBit
      = ClearBufferMask.opOr ClearBufferMask.DepthBufferBit ClearBufferMask.ColorBufferBit :=
  ⟨xorBits_eq_orBits_iff w a b, by decide, by decide⟩

/-- C7, as the code has it: `main` takes no argument and makes exactly one
construction call, with the arguments (640, 480, `GraphicsMode::Default`,
"Alunite").  Where the construction completes, `main` then runs that window
exactly once, makes no other framework call and returns: the calls are
the construction followed by the run.  Where the construction raises, the
failure leaves `main`, the construction is the only call and the window is
never run. -/
theorem C7_main_trace_by_construction_outcome (p : Platform) :
    main p =
      (match p.failure with
       | none =>
         (Except.ok (), [FrameworkCall.Construct 640 480 GraphicsMode.Default "Alunite",
                         FrameworkCall.Run Window.ctor.1])
       | some e =>
         (Except.error e, [FrameworkCall.Construct 640 480 GraphicsMode.Default "Alunite"])) ∧
    (main p).2.countP FrameworkCall.isConstruct = 1 ∧
    (main p).2.countP FrameworkCall.isRun = (if p.failure = none then 1 else 0) ∧
    (main p).2.length = (if p.failure = none then 2 else 1) := by
  cases p with
  | mk failure =>
    cases failure with
    | none => exact ⟨rfl, rfl, rfl, rfl⟩
    | some e => exact ⟨rfl, rfl, rfl, rfl⟩

/-- C7, as stated, fails where no graphics context is available: the calls of
`main` are then the construction alone, not the construction followed by a
run; the window is run zero times and `main` ends with the failure raised. -/
theorem C7_main_never_runs_without_context :
    (main { failure := some ConstructionFailure.MissingGraphicsContext }).2
      = [FrameworkCall.Construct 640 480 GraphicsMode.Default "Alunite"] ∧
    (main { failure := some ConstructionFailure.MissingGraphicsContext }).2
      ≠ [FrameworkCall.Construct 640 480 GraphicsMode.Default "Alunite",
         FrameworkCall.Run Window.ctor.1] ∧
    (main { failure := some ConstructionFailure.MissingGraphicsContext }).2.countP
      FrameworkCall.isRun = 0 ∧
    (main { failure := some ConstructionFailure.MissingGraphicsContext }).1
      = Except.error ConstructionFailure.MissingGraphicsContext := by
  refine ⟨rfl, ?_, rfl, rfl⟩
  intro h
  have hlen := congrArg List.length h
  exact absurd hlen (by decide)

/-- C8: `OnRenderFrame` ignores its argument: for any two frame-event
arguments the result is the same, and the calls it issues (the clear mask
included) are the same whatever the window state. -/
theorem C8_render_ignores_argument (this other : Window)
    (Args₁ Args₂ : FrameEventArgsHandle) :
    this.OnRenderFrame Args₁ = this.OnRenderFrame Args₂ ∧
    (this.OnRenderFrame Args₁).2 = (other.OnRenderFrame Args₂).2 ∧
    clearMasks (this.OnRenderFrame Args₁).2 = clearMasks (other.OnRenderFrame Args₂).2 := by
  refine ⟨rfl, ?_, ?_⟩ <;> simp only [OnRenderFrame_calls]

/-- C9: starting from the constructed window, after any finite sequence of
`OnUpdateFrame` and `OnRenderFrame` invocations with arbitrary arguments the
window's width is still 640, its height 480 and its title "Alunite". -/
theorem C9_size_invariant_under_callbacks (cbs : List Callback) :
    (Window.ctor.1.runCallbacks cbs).1.Width = 640 ∧
    (Window.ctor.1.runCallbacks cbs).1.Height = 480 ∧
    (Window.ctor.1.runCallbacks cbs).1.Title = "Alunite" ∧
    (Window.ctor.1.runCallbacks cbs).1 = Window.ctor.1 := by
  rw [runCallbacks_state]
  exact ⟨rfl, rfl, rfl, rfl⟩

end Alunite
